import Mathlib

/-!
Shallow embedding of the `vst3-rs` COM support layer
(`com-scrape-types/src/class.rs`) and of the generator's type parser
(`gen/parse.rs`), together with theorems checking the natural-language
specification against it.

Addresses are modelled as integers, machine reference counts as naturals
(the code never exercises overflow paths), and the composite header's
per-field byte offsets as an abstract assignment of an integer offset to
each field index, standing for the values of `offset_of!(__Header, I_k)`.
-/

namespace ComScrape

/-- A 16-byte unique identifier for a COM interface (`Guid = [u8; 16]`). -/
def Guid : Type := { l : List Nat // l.length = 16 }

instance : DecidableEq Guid :=
  inferInstanceAs (DecidableEq { l : List Nat // l.length = 16 })

/-- Builds the GUID whose first byte is `n` and whose other fifteen bytes are zero. -/
def Guid.ofByte (n : Nat) : Guid :=
  ⟨[n, 0, 0, 0, 0, 0, 0, 0, 0, 0, 0, 0, 0, 0, 0, 0], rfl⟩

/-- One COM interface as the runtime core sees it: its `IID` constant and its
`inherits` predicate (`Interface::inherits`, deciding whether the interface
transitively inherits the interface identified by a GUID). -/
structure InterfaceDesc where
  iid : Guid
  inherits : Guid → Bool

/-- One COM class as produced by `impl_class!`: the ordered list of implemented
interfaces `I1..In` making up the fields of the generated `__Header` struct,
together with the byte offset `offset_of!(__Header, I_k)` of each field. -/
structure ClassDesc where
  interfaces : List InterfaceDesc
  fieldOffset : Nat → Int

/-- The expansion of the `query_interface` body generated by `impl_class_inner!`:
one `if <I_k as Interface>::inherits(iid) { return Some(offset_of!(__Header, I_k)) }`
test per implemented interface, in declaration order, falling through to `None`.
The index accumulator `k` tracks which header field the current test belongs to. -/
def queryFrom (offs : Nat → Int) (iid : Guid) : List InterfaceDesc → Nat → Option Int
  | [], _ => none
  | i :: rest, k => if i.inherits iid then some (offs k) else queryFrom offs iid rest (k + 1)

/-- `<C as Class>::query_interface(iid)` from `impl_class_inner!` in `class.rs`. -/
def ClassDesc.query_interface (cls : ClassDesc) (iid : Guid) : Option Int :=
  queryFrom cls.fieldOffset iid cls.interfaces 0

/-- Byte layout of `ComWrapperInner<C>`: the values of
`offset_of!(ComWrapperInner<C>, header)` and `offset_of!(ComWrapperInner<C>, data)`. -/
structure Layout where
  headerOff : Int
  dataOff : Int

/-- `<ComWrapper<C> as Wrapper<C>>::data_from_header`: subtract the header
field offset from the pointer, then add the data field offset. -/
def data_from_header (L : Layout) (p : Int) : Int :=
  p - L.headerOff + L.dataOff

/-- `<ComWrapper<C> as Wrapper<C>>::header_from_data`: subtract the data
field offset from the pointer, then add the header field offset. -/
def header_from_data (L : Layout) (p : Int) : Int :=
  p - L.dataOff + L.headerOff

/-- State of one `ComWrapperInner<C>` allocation. `count` is the `Arc` strong
count and `freed` records whether the block has been deallocated;
`headerBytes` and `dataBytes` stand for the bytes of the `header` and `data`
fields. `wrappers` and `owned` are specification-level accounting: the number
of live `ComWrapper` values and the number of outstanding owned interface
pointers (live `ComPtr` values plus raw count units handed to foreign code). -/
structure AllocState where
  count : Nat
  freed : Bool
  headerBytes : List Nat
  dataBytes : List Nat
  wrappers : Nat
  owned : Nat
deriving DecidableEq

/-- The invariant of claim C2: the shared strong count equals the number of
live owning handles, `ComWrapper` values plus outstanding owned pointers. -/
abbrev countInv (s : AllocState) : Prop :=
  s.count = s.wrappers + s.owned

/-- `ComWrapper::new(data)`: a fresh `Arc` allocation holding header and data,
strong count 1, the single count unit held by the new wrapper. -/
def ComWrapper.new (header data : List Nat) : AllocState :=
  { count := 1, freed := false, headerBytes := header, dataBytes := data
    wrappers := 1, owned := 0 }

/-- `<ComWrapper<C> as Clone>::clone`: `Arc::clone` increments the strong
count; one more live wrapper value exists afterwards. -/
def cloneWrapper (s : AllocState) : AllocState :=
  { s with count := s.count + 1, wrappers := s.wrappers + 1 }

/-- Dropping a `ComWrapper` value: the `Arc` drop decrements the strong count
and deallocates the block when the count reaches zero. -/
def dropWrapper (s : AllocState) : AllocState :=
  if s.count = 1 then
    { s with count := 0, wrappers := s.wrappers - 1, freed := true }
  else
    { s with count := s.count - 1, wrappers := s.wrappers - 1 }

/-- `<ComWrapper<C> as Wrapper<C>>::add_ref`: reads `Arc::strong_count` plus
one as the result, then `Arc::increment_strong_count`; the incremented unit is
owned by the foreign caller afterwards. -/
def Wrapper.add_ref (s : AllocState) : AllocState × Nat :=
  ({ s with count := s.count + 1, owned := s.owned + 1 }, s.count + 1)

/-- `<ComWrapper<C> as Wrapper<C>>::release`: reads `Arc::strong_count` minus
one as the result, then `Arc::decrement_strong_count`, which deallocates the
block when the strong count reaches zero; the caller gives up one owned unit. -/
def Wrapper.release (s : AllocState) : AllocState × Nat :=
  (if s.count = 1 then
    { s with count := 0, owned := s.owned - 1, freed := true }
   else
    { s with count := s.count - 1, owned := s.owned - 1 },
   s.count - 1)

/-- `ComWrapper::as_com_ref::<I>`: on a `query_interface` hit, the borrowed
handle's address is the allocation base plus the header field offset plus the
interface field offset; the allocation state is untouched. -/
def as_com_ref (L : Layout) (cls : ClassDesc) (base : Int) (iid : Guid)
    (s : AllocState) : Option Int × AllocState :=
  match cls.query_interface iid with
  | some off => (some (base + L.headerOff + off), s)
  | none => (none, s)

/-- `ComWrapper::to_com_ptr::<I>`: on a `query_interface` hit,
`Arc::into_raw(self.inner.clone())` increments the strong count and transfers
that unit to the returned owned pointer; the address arithmetic is the same
as in `as_com_ref`. -/
def to_com_ptr (L : Layout) (cls : ClassDesc) (base : Int) (iid : Guid)
    (s : AllocState) : Option Int × AllocState :=
  match cls.query_interface iid with
  | some off =>
    (some (base + L.headerOff + off),
     { s with count := s.count + 1, owned := s.owned + 1 })
  | none => (none, s)

/-- The operations that touch one allocation after construction. -/
inductive Op where
  | cloneW : Op
  | dropW : Op
  | toPtr : Guid → Op
  | asRef : Guid → Op
  | ffiAddRef : Op
  | ffiRelease : Op

/-- Preconditions under which each operation can be invoked at all: the block
is live, and the caller actually holds the kind of handle the operation is
called through (a wrapper value, or an owned count unit for `release`). -/
def Op.valid (s : AllocState) : Op → Bool
  | .cloneW => !s.freed && decide (1 ≤ s.wrappers)
  | .dropW => !s.freed && decide (1 ≤ s.wrappers)
  | .toPtr _ => !s.freed && decide (1 ≤ s.wrappers)
  | .asRef _ => !s.freed && decide (1 ≤ s.wrappers)
  | .ffiAddRef => !s.freed && decide (1 ≤ s.count)
  | .ffiRelease => !s.freed && decide (1 ≤ s.owned)

/-- Effect of one operation on the allocation state. -/
def step (L : Layout) (cls : ClassDesc) (base : Int) (s : AllocState) :
    Op → AllocState
  | .cloneW => cloneWrapper s
  | .dropW => dropWrapper s
  | .toPtr iid => (to_com_ptr L cls base iid s).2
  | .asRef iid => (as_com_ref L cls base iid s).2
  | .ffiAddRef => (Wrapper.add_ref s).1
  | .ffiRelease => (Wrapper.release s).1

/-- Runs a sequence of `as_com_ref` calls (producing and discarding the
borrowed handles), threading the allocation state through. -/
def asComRefRun (L : Layout) (cls : ClassDesc) (base : Int) (iids : List Guid)
    (s : AllocState) : AllocState :=
  List.foldl (fun st iid => (as_com_ref L cls base iid st).2) s iids

/-- Example interface ids used by the witnesses. -/
def iidA : Guid := Guid.ofByte 1

def iidB : Guid := Guid.ofByte 2

def iidBase : Guid := Guid.ofByte 3

def iidNone : Guid := Guid.ofByte 4

/-- Example interface that inherits itself and a base interface. -/
def ifaceA : InterfaceDesc :=
  ⟨iidA, fun g => decide (g = iidA) || decide (g = iidBase)⟩

/-- Example interface unrelated to `ifaceA` and `iidBase`. -/
def ifaceB : InterfaceDesc :=
  ⟨iidB, fun g => decide (g = iidB)⟩

/-- Example class implementing `ifaceA` and `ifaceB`, with pointer-sized
header fields in declaration order. -/
def exCls : ClassDesc :=
  ⟨[ifaceA, ifaceB], fun k => 8 * (k : Int)⟩

/-- Example `ComWrapperInner` layout: header at offset 0, data at offset 16. -/
def exLayout : Layout := ⟨0, 16⟩

/-- Example allocation state: count 2 held by one wrapper and one owned pointer. -/
def exState : AllocState := ⟨2, false, [0], [7], 1, 1⟩

/-- Example allocation state whose two count units are both owned pointers. -/
def exState2 : AllocState := ⟨2, false, [0], [7], 0, 2⟩

/-- Progress of one `Wrapper::release` call through its two atomic operations
on the shared strong count, as the source orders them: first the
`Arc::strong_count` load (whose value, minus one, is the count the call
returns), then the separate `Arc::decrement_strong_count`. -/
inductive RelPhase where
  | start : RelPhase
  | loadedCount : Nat → RelPhase
  | done : Nat → RelPhase
deriving DecidableEq

/-- Shared state of one allocation with two threads each executing one
`Wrapper::release` call: the strong count, whether the block was freed, how
many deallocation events happened, and each thread's progress. -/
structure ConcState where
  count : Nat
  freed : Bool
  frees : Nat
  thA : RelPhase
  thB : RelPhase
deriving DecidableEq

/-- One scheduler step: the chosen thread (`true` for A, `false` for B)
performs the next atomic operation of its `release` call. The first operation
loads the strong count; the second decrements it, deallocating the block when
the count reaches zero, and completes the call with the previously loaded
count minus one as the returned value. A completed thread changes nothing. -/
def relStep (s : ConcState) (t : Bool) : ConcState :=
  match if t then s.thA else s.thB with
  | .start =>
    if t then { s with thA := .loadedCount s.count }
    else { s with thB := .loadedCount s.count }
  | .loadedCount c =>
    let s1 :=
      if s.count = 1 then { s with count := 0, freed := true, frees := s.frees + 1 }
      else { s with count := s.count - 1 }
    if t then { s1 with thA := .done (c - 1) }
    else { s1 with thB := .done (c - 1) }
  | .done _ => s

/-- Runs a schedule, an interleaving of the two threads' atomic operations. -/
def relRun (sched : List Bool) (s : ConcState) : ConcState :=
  List.foldl relStep s sched

/-- Two release calls about to run concurrently on an allocation with strong
count 2 (both count units held as owned interface pointers). -/
def conc2 : ConcState := ⟨2, false, 0, .start, .start⟩

/-- The racy schedule: both threads load the strong count before either
decrements it. -/
def racySched : List Bool := [true, false, true, false]

/-- The sequential schedule: thread A's release completes before B's starts. -/
def seqSched : List Bool := [true, true, false, false]

/-- Kind of a record declaration (`RecordKind` in `gen/parse.rs`). -/
inductive CRecordKind where
  | struct : CRecordKind
  | union : CRecordKind
deriving DecidableEq

mutual

/-- A clang type as `Parser::parse_type` consumes it: one constructor per
`TypeKind` the parser inspects, carrying exactly the data the parser reads
from it, and `unhandled` for every other kind, carrying that kind's debug
name. `wcharT` carries the byte size clang reports; `recordT` carries the
record's declaration; `typedefT` carries whether its declaration lives in a
system header, the typedef name, and the underlying type; `elaboratedT`
carries the named type. -/
inductive CType : Type where
  | voidT : CType
  | boolT : CType
  | charUT : CType
  | charST : CType
  | ucharT : CType
  | ushortT : CType
  | uintT : CType
  | scharT : CType
  | char16T : CType
  | wcharT : Nat → CType
  | ulongT : CType
  | ulonglongT : CType
  | shortT : CType
  | intT : CType
  | longT : CType
  | longlongT : CType
  | floatT : CType
  | doubleT : CType
  | pointerT : Bool → CType → CType
  | lvalueReferenceT : Bool → CType → CType
  | recordT : CRecordDecl → CType
  | enumT : CType → CType
  | typedefT : Bool → String → CType → CType
  | constantArrayT : Nat → CType → CType
  | elaboratedT : CType → CType
  | unhandled : String → CType

/-- A record declaration: its name, struct/union kind, and child cursors. -/
inductive CRecordDecl : Type where
  | mk : String → CRecordKind → List CCursor → CRecordDecl

/-- The child cursors of a record declaration, as `parse_record` visits them:
a field (name, cursor location, type), a possibly virtual method (name,
cursor location, arguments, result type), a base-class specifier, or any
other cursor kind, which the visitor ignores. -/
inductive CCursor : Type where
  | fieldDecl : String → String → CType → CCursor
  | cxxMethod : Bool → String → String → List CArg → CType → CCursor
  | baseSpecifier : String → CCursor
  | otherCursor : CCursor

/-- One method argument: its name, cursor location, and type. -/
inductive CArg : Type where
  | mk : String → String → CType → CArg

end

mutual

/-- The `Type` descriptor enum produced by the parser (`gen/parse.rs`). -/
inductive PType : Type where
  | Void : PType
  | Bool : PType
  | Char : PType
  | UChar : PType
  | UShort : PType
  | UInt : PType
  | ULong : PType
  | ULongLong : PType
  | SChar : PType
  | Short : PType
  | Int : PType
  | Long : PType
  | LongLong : PType
  | Unsigned : Nat → PType
  | Signed : Nat → PType
  | Float : PType
  | Double : PType
  | Pointer : Bool → PType → PType
  | Reference : Bool → PType → PType
  | Record : String → PType
  | UnnamedRecord : PRecord → PType
  | Typedef : String → PType
  | Array : Nat → PType → PType

/-- The `Record` struct produced by the parser: name, kind, fields, base
names, and virtual methods. -/
inductive PRecord : Type where
  | mk : String → CRecordKind → List PField → List String → List PMethod → PRecord

/-- The `Field` struct produced by the parser: name and type. -/
inductive PField : Type where
  | mk : String → PType → PField

/-- The `Method` struct produced by the parser: name, arguments, result type. -/
inductive PMethod : Type where
  | mk : String → List PArg → PType → PMethod

/-- The `Argument` struct produced by the parser: name and type. -/
inductive PArg : Type where
  | mk : String → PType → PArg

end

/-- Outcome of a fallible parser function: `ok` models `Ok`, `err` models a
propagated `Err` (the `?` operator), and `panicked` models a Rust panic, as
raised by `Result::unwrap` on an `Err` value. -/
inductive POutcome (α : Type) where
  | ok : α → POutcome α
  | err : String → POutcome α
  | panicked : String → POutcome α
deriving DecidableEq

/-- The `?` operator: propagates `Err`, and a panic aborts everything. -/
def pbind {α β : Type} : POutcome α → (α → POutcome β) → POutcome β
  | .ok a, f => f a
  | .err m, _ => .err m
  | .panicked m, _ => .panicked m

mutual

/-- `Parser::parse_type` from `gen/parse.rs`: maps each handled `TypeKind` to
its `Type` descriptor, recursing into pointees, array elements, enum integer
types, system-header typedef underlying types and elaborated named types with
the same `location` argument; a record type with an empty declaration name is
parsed via `parse_record`; every unhandled kind becomes the error
`"error at {location}: unhandled type kind {kind}"`. -/
def parse_type (t : CType) (location : String) : POutcome PType :=
  match t with
  | .voidT => .ok .Void
  | .boolT => .ok .Bool
  | .charUT => .ok .Char
  | .charST => .ok .Char
  | .ucharT => .ok .UChar
  | .ushortT => .ok .UShort
  | .uintT => .ok .UInt
  | .scharT => .ok .SChar
  | .char16T => .ok .Short
  | .wcharT size => .ok (.Unsigned size)
  | .ulongT => .ok .ULong
  | .ulonglongT => .ok .ULongLong
  | .shortT => .ok .Short
  | .intT => .ok .Int
  | .longT => .ok .Long
  | .longlongT => .ok .LongLong
  | .floatT => .ok .Float
  | .doubleT => .ok .Double
  | .pointerT isConst pointee =>
    pbind (parse_type pointee location) (fun p => .ok (.Pointer isConst p))
  | .lvalueReferenceT isConst pointee =>
    pbind (parse_type pointee location) (fun p => .ok (.Reference isConst p))
  | .recordT (.mk name kind children) =>
    if name = "" then
      pbind (parse_record (.mk name kind children)) (fun r => .ok (.UnnamedRecord r))
    else
      .ok (.Record name)
  | .enumT intType => parse_type intType location
  | .typedefT system name underlying =>
    if system then parse_type underlying location else .ok (.Typedef name)
  | .constantArrayT size elem =>
    pbind (parse_type elem location) (fun e => .ok (.Array size e))
  | .elaboratedT named => parse_type named location
  | .unhandled kind =>
    .err ("error at " ++ location ++ ": unhandled type kind " ++ kind)
termination_by sizeOf t

/-- `Parser::parse_record`: reads the declaration's name and kind and visits
its children in order. -/
def parse_record (decl : CRecordDecl) : POutcome PRecord :=
  match decl with
  | .mk name kind children =>
    pbind (parse_children children) (fun acc =>
      .ok (.mk name kind acc.1 acc.2.1 acc.2.2))
termination_by sizeOf decl

/-- The child visitor of `parse_record`: a field's type is parsed with the
field cursor's own location (`?` on failure); a virtual method's argument
types are parsed with `?`, but its result type is parsed with
`Result::unwrap`, so an `Err` there panics; base specifiers record the base
name; every other cursor kind is skipped. -/
def parse_children (cs : List CCursor) :
    POutcome (List PField × List String × List PMethod) :=
  match cs with
  | [] => .ok ([], [], [])
  | .fieldDecl name loc ty :: rest =>
    pbind (parse_type ty loc) (fun pt =>
      pbind (parse_children rest) (fun acc =>
        .ok (.mk name pt :: acc.1, acc.2.1, acc.2.2)))
  | .cxxMethod virt name loc args result :: rest =>
    if virt then
      pbind (parse_args args) (fun pargs =>
        match parse_type result loc with
        | .ok rt =>
          pbind (parse_children rest) (fun acc =>
            .ok (acc.1, acc.2.1, .mk name pargs rt :: acc.2.2))
        | .err m => .panicked m
        | .panicked m => .panicked m)
    else
      parse_children rest
  | .baseSpecifier tn :: rest =>
    pbind (parse_children rest) (fun acc => .ok (acc.1, tn :: acc.2.1, acc.2.2))
  | .otherCursor :: rest => parse_children rest
termination_by sizeOf cs

/-- Parses the argument list of a virtual method, propagating errors with `?`. -/
def parse_args (args : List CArg) : POutcome (List PArg) :=
  match args with
  | [] => .ok []
  | .mk name loc ty :: rest =>
    pbind (parse_type ty loc) (fun pt =>
      pbind (parse_args rest) (fun prest => .ok (.mk name pt :: prest)))
termination_by sizeOf args

end

/-- An unnamed record whose single child is a virtual method with an
unhandled result type kind: the failing input for claim C9. -/
def badRecordDecl : CRecordDecl :=
  .mk "" .struct [.cxxMethod true "getCallback" "plugin.h:10:5" []
    (.unhandled "FunctionProto")]

/-- The clang type handing `badRecordDecl` to `parse_type`. -/
def badInput : CType := .recordT badRecordDecl

theorem queryFrom_shift (offs : Nat → Int) (iid : Guid) (l : List InterfaceDesc) (k : Nat) :
    queryFrom offs iid l k = (l.findIdx? (fun i => i.inherits iid)).map (fun j => offs (k + j)) := by
  induction l generalizing k with
  | nil => simp [queryFrom]
  | cons i rest ih =>
    by_cases h : i.inherits iid
    · simp [queryFrom, h, List.findIdx?_cons]
    · simp only [queryFrom]
      rw [if_neg h, ih (k + 1), List.findIdx?_cons, if_neg h, List.findIdx?_succ,
        Option.map_map]
      congr 1
      funext j
      simp only [Function.comp_apply]
      congr 1
      omega

theorem queryFrom_eq_none_iff (offs : Nat → Int) (iid : Guid) (l : List InterfaceDesc) (k : Nat) :
    queryFrom offs iid l k = none ↔ ∀ i ∈ l, i.inherits iid = false := by
  induction l generalizing k with
  | nil => simp [queryFrom]
  | cons i rest ih =>
    by_cases h : i.inherits iid
    · simp [queryFrom, h]
    · simp [queryFrom, h, ih (k + 1)]

/-- C1: `query_interface` scans the implemented-interface list `I1..In` in
declaration order and returns the header-field offset of the first `I_k` with
`I_k.inherits(iid)` true (first declared wins), and `None` exactly when no
implemented interface satisfies `iid`. -/
theorem query_interface_first_match (cls : ClassDesc) (iid : Guid) :
    cls.query_interface iid
        = (cls.interfaces.findIdx? (fun i => i.inherits iid)).map cls.fieldOffset ∧
      (cls.query_interface iid = none ↔ ∀ i ∈ cls.interfaces, i.inherits iid = false) := by
  constructor
  · rw [ClassDesc.query_interface, queryFrom_shift]
    cases cls.interfaces.findIdx? (fun i => i.inherits iid) with
    | none => rfl
    | some j => simp
  · rw [ClassDesc.query_interface, queryFrom_eq_none_iff]

theorem as_com_ref_snd (L : Layout) (cls : ClassDesc) (base : Int) (iid : Guid)
    (s : AllocState) : (as_com_ref L cls base iid s).2 = s := by
  unfold as_com_ref
  cases cls.query_interface iid <;> rfl

/-- C2: the shared count always equals the number of live owning handles:
`ComWrapper::new` starts the block at count 1 held by the one wrapper,
`clone` and every successful `to_com_ptr` increment the single shared count
by exactly one, and every operation preserves the equality
`count = wrappers + owned`. -/
theorem refcount_equals_live_handles (L : Layout) (cls : ClassDesc) (base : Int)
    (hdr dat : List Nat) :
    (ComWrapper.new hdr dat).count = 1 ∧
      (ComWrapper.new hdr dat).wrappers = 1 ∧
      (ComWrapper.new hdr dat).owned = 0 ∧
      countInv (ComWrapper.new hdr dat) ∧
      (∀ s : AllocState, (cloneWrapper s).count = s.count + 1) ∧
      (∀ (s : AllocState) (iid : Guid), (cls.query_interface iid).isSome = true →
        ((to_com_ptr L cls base iid s).2).count = s.count + 1) ∧
      (∀ (s : AllocState) (op : Op), Op.valid s op = true → countInv s →
        countInv (step L cls base s op)) := by
  refine ⟨rfl, rfl, rfl, rfl, fun s => rfl, ?_, ?_⟩
  · intro s iid h
    unfold to_com_ptr
    cases hq : cls.query_interface iid with
    | none => rw [hq] at h; simp at h
    | some off => simp
  · intro s op hv hinv
    cases op with
    | cloneW =>
      simp only [step, cloneWrapper, countInv] at *
      omega
    | dropW =>
      simp only [Op.valid, Bool.and_eq_true, Bool.not_eq_eq_eq_not, Bool.not_true,
        decide_eq_true_eq] at hv
      simp only [step, dropWrapper, countInv] at *
      by_cases h : s.count = 1 <;> simp [h] <;> omega
    | toPtr iid =>
      simp only [step, to_com_ptr, countInv] at *
      cases cls.query_interface iid <;> simp <;> omega
    | asRef iid =>
      simp only [step, countInv] at *
      rw [as_com_ref_snd]
      exact hinv
    | ffiAddRef =>
      simp only [step, Wrapper.add_ref, countInv] at *
      omega
    | ffiRelease =>
      simp only [Op.valid, Bool.and_eq_true, Bool.not_eq_eq_eq_not, Bool.not_true,
        decide_eq_true_eq] at hv
      simp only [step, Wrapper.release, countInv] at *
      by_cases h : s.count = 1 <;> simp [h] <;> omega

theorem refcount_equals_live_handles_witness :
    countInv (step exLayout exCls 16 (ComWrapper.new [0] [7]) Op.cloneW) ∧
      countInv (step exLayout exCls 16 (ComWrapper.new [0] [7]) (Op.toPtr iidA)) :=
  ⟨(refcount_equals_live_handles exLayout exCls 16 [0] [7]).2.2.2.2.2.2
      (ComWrapper.new [0] [7]) Op.cloneW (by decide) rfl,
   (refcount_equals_live_handles exLayout exCls 16 [0] [7]).2.2.2.2.2.2
      (ComWrapper.new [0] [7]) (Op.toPtr iidA) (by decide) rfl⟩

/-- C3: on a live allocation with shared count `n`, `Wrapper::add_ref`
increments the count and returns `n + 1`, and `Wrapper::release` decrements
the count and returns `n - 1`, deallocating the block exactly when the count
reaches zero. -/
theorem add_ref_release_count (s : AllocState) (n : Nat)
    (hn : s.count = n) (h1 : 1 ≤ n) (hf : s.freed = false) :
    (Wrapper.add_ref s).2 = n + 1 ∧
      ((Wrapper.add_ref s).1).count = n + 1 ∧
      ((Wrapper.add_ref s).1).freed = false ∧
      (Wrapper.release s).2 = n - 1 ∧
      ((Wrapper.release s).1).count = n - 1 ∧
      (((Wrapper.release s).1).freed = true ↔ n - 1 = 0) := by
  subst hn
  unfold Wrapper.add_ref Wrapper.release
  by_cases h : s.count = 1
  · simp [h, hf]
  · simp [h, hf]
    omega

theorem add_ref_release_count_witness :
    (Wrapper.add_ref exState).2 = 3 ∧
      ((Wrapper.add_ref exState).1).count = 3 ∧
      ((Wrapper.add_ref exState).1).freed = false ∧
      (Wrapper.release exState).2 = 1 ∧
      ((Wrapper.release exState).1).count = 1 ∧
      (((Wrapper.release exState).1).freed = true ↔ 1 = 0) :=
  add_ref_release_count exState 2 rfl (by decide) rfl

/-- C4: casting to an interface no implemented interface inherits yields
`None` from both `as_com_ref` and `to_com_ptr`, with the allocation state
(count included) untouched; casting to an implemented interface yields `Some`. -/
theorem unsupported_cast_is_none (L : Layout) (cls : ClassDesc) (base : Int)
    (iid : Guid) (s : AllocState) :
    ((∀ i ∈ cls.interfaces, i.inherits iid = false) →
        as_com_ref L cls base iid s = (none, s) ∧
          to_com_ptr L cls base iid s = (none, s)) ∧
      ((∃ i ∈ cls.interfaces, i.inherits iid = true) →
        (as_com_ref L cls base iid s).1.isSome = true ∧
          (to_com_ptr L cls base iid s).1.isSome = true) := by
  constructor
  · intro h
    have hq : cls.query_interface iid = none := by
      rw [ClassDesc.query_interface, queryFrom_eq_none_iff]
      exact h
    unfold as_com_ref to_com_ptr
    rw [hq]
    exact ⟨rfl, rfl⟩
  · intro h
    have hq : cls.query_interface iid ≠ none := by
      rw [ClassDesc.query_interface, Ne, queryFrom_eq_none_iff]
      intro hall
      obtain ⟨i, hm, hi⟩ := h
      rw [hall i hm] at hi
      cases hi
    cases hq' : cls.query_interface iid with
    | none => exact absurd hq' hq
    | some off =>
      unfold as_com_ref to_com_ptr
      rw [hq']
      exact ⟨rfl, rfl⟩

theorem unsupported_cast_is_none_witness :
    (as_com_ref exLayout exCls 16 iidNone exState = (none, exState) ∧
        to_com_ptr exLayout exCls 16 iidNone exState = (none, exState)) ∧
      ((as_com_ref exLayout exCls 16 iidA exState).1.isSome = true ∧
        (to_com_ptr exLayout exCls 16 iidA exState).1.isSome = true) :=
  ⟨(unsupported_cast_is_none exLayout exCls 16 iidNone exState).1 (by decide),
   (unsupported_cast_is_none exLayout exCls 16 iidA exState).2 (by decide)⟩

/-- C5: for a class implementing two interfaces `a` (first declared) and `b`,
casting for `a.iid` and for `b.iid` yields the two distinct non-null
addresses `base + headerOff + offs 0` and `base + headerOff + offs 1`
(allocation header base plus the statically computed field offset), while an
identity neither interface inherits yields `None`. -/
theorem cast_distinct_addresses (L : Layout) (a b : InterfaceDesc)
    (offs : Nat → Int) (base : Int) (iidU : Guid) (s : AllocState)
    (ha : a.inherits a.iid = true) (hb : b.inherits b.iid = true)
    (hab : a.inherits b.iid = false)
    (hoff : offs 0 ≠ offs 1) (hbase : 0 < base)
    (hh : 0 ≤ L.headerOff) (h0 : 0 ≤ offs 0) (h1 : 0 ≤ offs 1)
    (hua : a.inherits iidU = false) (hub : b.inherits iidU = false) :
    (as_com_ref L ⟨[a, b], offs⟩ base a.iid s).1
        = some (base + L.headerOff + offs 0) ∧
      (as_com_ref L ⟨[a, b], offs⟩ base b.iid s).1
        = some (base + L.headerOff + offs 1) ∧
      base + L.headerOff + offs 0 ≠ base + L.headerOff + offs 1 ∧
      base + L.headerOff + offs 0 ≠ 0 ∧
      base + L.headerOff + offs 1 ≠ 0 ∧
      (as_com_ref L ⟨[a, b], offs⟩ base iidU s).1 = none := by
  have qa : ClassDesc.query_interface ⟨[a, b], offs⟩ a.iid = some (offs 0) := by
    simp [ClassDesc.query_interface, queryFrom, ha]
  have qb : ClassDesc.query_interface ⟨[a, b], offs⟩ b.iid = some (offs 1) := by
    simp [ClassDesc.query_interface, queryFrom, hab, hb]
  have qu : ClassDesc.query_interface ⟨[a, b], offs⟩ iidU = none := by
    simp [ClassDesc.query_interface, queryFrom, hua, hub]
  refine ⟨?_, ?_, by omega, by omega, by omega, ?_⟩
  · unfold as_com_ref
    rw [qa]
  · unfold as_com_ref
    rw [qb]
  · unfold as_com_ref
    rw [qu]

theorem cast_distinct_addresses_witness :
    (as_com_ref exLayout exCls 16 iidA exState).1 = some 16 ∧
      (as_com_ref exLayout exCls 16 iidB exState).1 = some 24 ∧
      (16 : Int) ≠ 24 ∧
      (as_com_ref exLayout exCls 16 iidNone exState).1 = none := by
  have h := cast_distinct_addresses exLayout ifaceA ifaceB
    (fun k => 8 * (k : Int)) 16 iidNone exState (by decide) (by decide) (by decide)
    (by decide) (by decide) (by decide) (by decide) (by decide) (by decide) (by decide)
  refine ⟨?_, ?_, by decide, ?_⟩
  · have := h.1
    simpa [exLayout, exCls, ifaceA, ifaceB] using this
  · have := h.2.1
    simpa [exLayout, exCls, ifaceA, ifaceB] using this
  · have := h.2.2.2.2.2
    simpa [exLayout, exCls, ifaceA, ifaceB] using this

/-- C6: `data_from_header` and `header_from_data` are mutually inverse: the
base is recovered purely by subtracting and adding the two fixed field
offsets of `ComWrapperInner`. -/
theorem header_data_offsets_inverse (L : Layout) :
    (∀ p : Int, header_from_data L (data_from_header L p) = p) ∧
      (∀ q : Int, data_from_header L (header_from_data L q) = q) := by
  constructor <;> intro p <;> unfold header_from_data data_from_header <;> omega

/-- C7: any sequence of `as_com_ref` calls (producing and discarding borrowed
handles) leaves the allocation state, in particular the shared count and the
header and data bytes, unchanged. -/
theorem borrow_noninterference (L : Layout) (cls : ClassDesc) (base : Int)
    (iids : List Guid) (s : AllocState) :
    asComRefRun L cls base iids s = s ∧
      (asComRefRun L cls base iids s).count = s.count ∧
      (asComRefRun L cls base iids s).headerBytes = s.headerBytes ∧
      (asComRefRun L cls base iids s).dataBytes = s.dataBytes := by
  have key : ∀ (l : List Guid) (t : AllocState), asComRefRun L cls base l t = t := by
    intro l
    induction l with
    | nil => intro t; rfl
    | cons i rest ih =>
      intro t
      show asComRefRun L cls base rest ((as_com_ref L cls base i t).2) = t
      rw [as_com_ref_snd]
      exact ih t
  exact ⟨key iids s, by rw [key iids s], by rw [key iids s], by rw [key iids s]⟩

/-- C8: counterexample at the source's actual release, whose returned count
comes from an `Arc::strong_count` load that is a separate atomic operation
from the `Arc::decrement_strong_count` that follows it (`class.rs` lines 148
to 152). Under the interleaving where two concurrent releases from count 2
both load before either decrements, both calls return the nonzero count 1 and
no caller observes the resulting count zero, although the block is still
deallocated exactly once, by the second decrement; under the sequential
schedule the second call returns 0. So the claimed exactly-one-observes-zero
property fails on the code even though `Arc` keeps the deallocation unique. -/
theorem concurrent_releases_can_both_return_nonzero :
    (relRun racySched conc2).thA = RelPhase.done 1 ∧
      (relRun racySched conc2).thB = RelPhase.done 1 ∧
      (relRun racySched conc2).freed = true ∧
      (relRun racySched conc2).frees = 1 ∧
      (relRun seqSched conc2).thA = RelPhase.done 1 ∧
      (relRun seqSched conc2).thB = RelPhase.done 0 ∧
      (relRun seqSched conc2).frees = 1 := by
  decide

/-- C10: the raw address produced by `as_com_ref` equals the raw address
produced by `to_com_ptr` for the same wrapper and interface, independently of
the allocation state, and repeating `to_com_ptr` (whose count increment is
threaded through) returns the same address again. -/
theorem borrowed_owned_cast_agree (L : Layout) (cls : ClassDesc) (base : Int)
    (iid : Guid) (s t : AllocState) :
    (as_com_ref L cls base iid s).1 = (to_com_ptr L cls base iid t).1 ∧
      (as_com_ref L cls base iid s).1 = (as_com_ref L cls base iid t).1 ∧
      (to_com_ptr L cls base iid ((to_com_ptr L cls base iid s).2)).1
        = (to_com_ptr L cls base iid s).1 := by
  unfold as_com_ref to_com_ptr
  cases cls.query_interface iid <;> simp

/-- C9: at the failing input — an unnamed record whose virtual method has a
result type of unhandled kind — `parse_type` panics (the source calls
`Result::unwrap` on the `Err` propagated from the result type, `parse.rs`
lines 214 to 216) instead of returning the error value the claim describes;
the same unhandled construct handed to `parse_type` directly does produce
the error value, whose message carries the source location. -/
theorem parse_type_panics_on_unhandled_method_result :
    parse_type badInput "plugin.h:9:1"
        = POutcome.panicked "error at plugin.h:10:5: unhandled type kind FunctionProto" ∧
      parse_type (.unhandled "FunctionProto") "plugin.h:10:5"
        = POutcome.err "error at plugin.h:10:5: unhandled type kind FunctionProto" := by
  constructor
  · rw [show badInput = CType.recordT badRecordDecl from rfl]
    rw [show badRecordDecl = CRecordDecl.mk "" CRecordKind.struct
      [CCursor.cxxMethod true "getCallback" "plugin.h:10:5" []
        (CType.unhandled "FunctionProto")] from rfl]
    rw [parse_type]
    rw [if_pos rfl]
    rw [parse_record]
    rw [parse_children]
    rw [if_pos rfl]
    rw [parse_args]
    rw [parse_type]
    rfl
  · rw [parse_type]
    rfl

end ComScrape
